import Mathlib

/-!
Shallow embedding of the DockMate pre-flight environment-verification
subsystem (`internal/check/precheck.go`).

The host environment observed by the checker is modelled as an explicit
`HostState`: the result of every PATH probe, the text of the group
database, the current user name, the `id -nG` output, the accessibility
of the control socket, and the exit status / stderr of the two separate
`docker info` subprocess invocations (the captured diagnostic run, and
the independent re-invocation performed by `isDaemonRunning`).

Go string helpers (`strings.Contains`, `Split`, `Fields`, `TrimSpace`,
`HasPrefix`) are embedded as executable functions on `List Char`.
-/

namespace DockMate

/-- Model of Go `strings.HasPrefix` / list prefix test. -/
def isPrefixOfL : List Char → List Char → Bool
  | [], _ => true
  | _ :: _, [] => false
  | a :: as, b :: bs => a == b && isPrefixOfL as bs

/-- Model of Go `strings.Contains` on char lists (first argument is the needle). -/
def containsL (needle : List Char) : List Char → Bool
  | [] => needle.isEmpty
  | h :: t => isPrefixOfL needle (h :: t) || containsL needle t

/-- Go `strings.Contains hay needle`. -/
def strContains (hay needle : String) : Bool :=
  containsL needle.data hay.data

/-- Go `strings.HasPrefix sv p`. -/
def strStartsWith (sv p : String) : Bool :=
  isPrefixOfL p.data sv.data

/-- Go `strings.Split` with a one-character separator. -/
def splitOnCh (c : Char) : List Char → List (List Char)
  | [] => [[]]
  | ch :: rest =>
    match splitOnCh c rest with
    | [] => [[]]
    | l :: ls => if ch = c then [] :: l :: ls else (ch :: l) :: ls

/-- Whitespace as recognised by Go `unicode.IsSpace` (ASCII part). -/
def isSpaceGo (c : Char) : Bool :=
  c = ' ' || c = '\t' || c = '\n' || c = '\x0b' || c = '\x0c' || c = '\r'

/-- Split on a character class, keeping empty pieces. -/
def splitOnP (p : Char → Bool) : List Char → List (List Char)
  | [] => [[]]
  | ch :: rest =>
    match splitOnP p rest with
    | [] => [[]]
    | l :: ls => if p ch then [] :: l :: ls else (ch :: l) :: ls

/-- Go `strings.Fields`: whitespace-separated words. -/
def fieldsL (l : List Char) : List (List Char) :=
  (splitOnP isSpaceGo l).filter (fun w => !w.isEmpty)

/-- Go `strings.TrimSpace` on char lists. -/
def trimSpaceL (l : List Char) : List Char :=
  ((l.dropWhile isSpaceGo).reverse.dropWhile isSpaceGo).reverse

/-- Outcome of `os.OpenFile("/var/run/docker.sock", os.O_RDWR, 0)`. -/
inductive SocketOpenResult
  | ok
  | permissionErr (msg : String)
  | otherErr (msg : String)
deriving DecidableEq, Repr

/-- The host environment as observed by one run of the pre-checks:
PATH probe results, OS identity, group database text (`none` = read
error), current user (`none` = `user.Current` error), `id -nG` output
(`none` = command error), socket state, and the exit status / stderr of
the captured `docker info` diagnostic plus the exit status of the
independent re-invocation done by `isDaemonRunning`. -/
structure HostState where
  goos : String
  dockerInPath : Bool
  infoExitOk : Bool
  infoStderr : String
  recheckOk : Bool
  hasSystemctl : Bool
  hasRcService : Bool
  hasSv : Bool
  hasGrep : Bool
  hasId : Bool
  etcGroup : Option String
  currentUser : Option String
  idOutput : Option String
  socketExists : Bool
  socketOpen : SocketOpenResult
deriving DecidableEq, Repr

/-- Error taxonomy of `precheck.go` (`PreCheckErrorType`). -/
inductive PreCheckErrorType
  | NoError
  | DockerNotInstalled
  | DockerDaemonNotRunning
  | DockerPermissionDenied
  | DockerGroupNotRefreshed
deriving DecidableEq, Repr

/-- `PreCheckResult` of `precheck.go`; defaults model Go zero values. -/
structure PreCheckResult where
  Passed : Bool
  ErrorType : PreCheckErrorType := .NoError
  ErrorMessage : String := ""
  SuggestedAction : String := ""
deriving DecidableEq, Repr

/-- `commandExists` (`exec.LookPath`) read off the host state. -/
def commandExists (s : HostState) (c : String) : Bool :=
  if c = "docker" then s.dockerInPath
  else if c = "systemctl" then s.hasSystemctl
  else if c = "rc-service" then s.hasRcService
  else if c = "sv" then s.hasSv
  else if c = "grep" then s.hasGrep
  else if c = "id" then s.hasId
  else false

/-- `getDockerStartCommand` of `precheck.go`. -/
def getDockerStartCommand (s : HostState) : String :=
  if s.goos = "darwin" then "Start Docker Desktop application"
  else if commandExists s "systemctl" then "sudo systemctl start docker"
  else if commandExists s "rc-service" then "sudo rc-service docker start"
  else if commandExists s "sv" then "sudo sv up docker"
  else "sudo service docker start"

/-- `getDockerRestartCommand` of `precheck.go`. -/
def getDockerRestartCommand (s : HostState) : String :=
  if s.goos = "darwin" then "Restart Docker Desktop application"
  else if commandExists s "systemctl" then "sudo systemctl restart docker"
  else if commandExists s "rc-service" then "sudo rc-service docker restart"
  else if commandExists s "sv" then "sudo sv restart docker"
  else "sudo service docker restart"

/-- Lines of the group database matching `grep` pattern `docker:` anchored
at line start (`^docker:`). -/
def dockerGroupLines (data : String) : List (List Char) :=
  (splitOnCh '\n' data.data).filter (fun l => isPrefixOfL "docker:".data l)

/-- `doesDockerGroupExist` of `precheck.go`: grep path models
`grep ^docker: /etc/group` exiting 0 iff the file is readable and has a
matching line; fallback path reads the file directly. -/
def doesDockerGroupExist (s : HostState) : Bool :=
  if s.goos = "darwin" then false
  else if !commandExists s "grep" then
    match s.etcGroup with
    | none => false
    | some data => strContains data "\ndocker:" || strStartsWith data "docker:"
  else
    match s.etcGroup with
    | none => false
    | some data => !(dockerGroupLines data).isEmpty

/-- The `output` bytes obtained by `isUserInDockerGroup` before parsing:
`none` models every early `return false` (error from `user.Current`,
`grep`, `os.ReadFile`, or no matching line in the fallback path).
`grep` output is each matching line followed by a newline. -/
def dockerGroupOutput (s : HostState) : Option (List Char) :=
  if commandExists s "grep" then
    match s.etcGroup with
    | none => none
    | some data =>
      match dockerGroupLines data with
      | [] => none
      | ls => some (ls.foldr (fun l acc => l ++ '\n' :: acc) [])
  else
    match s.etcGroup with
    | none => none
    | some data => (dockerGroupLines data).head?

/-- `isUserInDockerGroup` of `precheck.go`, with the error return
collapsed to `false` exactly as the call site
`inGroupFile, _ := isUserInDockerGroup()` does. -/
def isUserInDockerGroup (s : HostState) : Bool :=
  if s.goos = "darwin" then false
  else
    match s.currentUser with
    | none => false
    | some username =>
      match dockerGroupOutput s with
      | none => false
      | some line =>
        match splitOnCh ':' line with
        | _ :: _ :: _ :: p3 :: _ =>
          if (trimSpaceL p3).isEmpty then false
          else ((splitOnCh ',' (trimSpaceL p3)).any
            (fun u => trimSpaceL u == username.data))
        | _ => false

/-- `isDockerInActiveGroups` of `precheck.go` (`id -nG` output parsed
with `strings.Fields`), error collapsed to `false` as at the call site. -/
def isDockerInActiveGroups (s : HostState) : Bool :=
  if s.goos = "darwin" then false
  else if !commandExists s "id" then false
  else
    match s.idOutput with
    | none => false
    | some out => (fieldsL out.data).any (fun g => g == "docker".data)

/-- `checkDockerSocketPermissions` of `precheck.go`. -/
def checkDockerSocketPermissions (s : HostState) : Bool × String :=
  if s.goos = "darwin" then (true, "")
  else if !s.socketExists then
    (false, "Docker socket not found at /var/run/docker.sock")
  else
    match s.socketOpen with
    | .permissionErr e => (false, "Socket exists but insufficient permissions: " ++ e)
    | .otherErr e => (false, "Cannot access socket: " ++ e)
    | .ok => (true, "")

/-- `checkDockerInstalled` of `precheck.go`. -/
def checkDockerInstalled (s : HostState) : PreCheckResult :=
  if !commandExists s "docker" then
    { Passed := false
      ErrorType := .DockerNotInstalled
      ErrorMessage := "Docker is not installed or not found in PATH"
      SuggestedAction := "Please install Docker to use this application.\n\nInstallation guide: https://docs.docker.com/engine/install/" }
  else { Passed := true }

/-- The captured diagnostic run `exec.Command("docker", "info")` with
stderr capture: when the binary is absent the run fails and the stderr
buffer stays empty. -/
def runDockerInfo (s : HostState) : Bool × String :=
  if commandExists s "docker" then (s.infoExitOk, s.infoStderr)
  else (false, "")

/-- `isDaemonRunning` of `precheck.go`: the independent re-invocation of
`docker info` (no stderr capture), succeeding only when the binary
resolves and the re-run exits zero. -/
def isDaemonRunning (s : HostState) : Bool :=
  commandExists s "docker" && s.recheckOk

/-- Which terminal branch of `checkDockerDaemon` produced the result. -/
inductive DaemonBranch
  | okPass
  | daemonDown
  | macPerm
  | sockPerm
  | groupRefresh
  | groupMissing
  | addUser
  | fallbackCase
deriving DecidableEq, Repr

/-- Remedy text of the branch where the docker group is missing. -/
def createGroupAction : String :=
  "The 'docker' group doesn't exist. Create it and add your user:\n\n  sudo groupadd docker\n  sudo usermod -aG docker $USER\n\nThen log out and back in.\n\nGuide: https://docs.docker.com/engine/install/linux-postinstall/#manage-docker-as-a-non-root-user"

/-- Remedy text of the branch where the group exists but lacks the user. -/
def addUserAction : String :=
  "Add your user to the 'docker' group:\n\n  sudo usermod -aG docker $USER\n\nThen log out and back in.\n\nGuide: https://docs.docker.com/engine/install/linux-postinstall/#manage-docker-as-a-non-root-user"

/-- `checkDockerDaemon` of `precheck.go`, instrumented with the branch
taken. The `if`/`return` cascade is translated clause by clause; stderr
of the captured run is `(runDockerInfo s).snd`. -/
def checkDockerDaemonT (s : HostState) : PreCheckResult × DaemonBranch :=
  if (runDockerInfo s).fst then ({ Passed := true }, .okPass)
  else if strContains (runDockerInfo s).snd "Is the docker daemon running"
      || strContains (runDockerInfo s).snd "cannot connect to the Docker daemon"
      || !isDaemonRunning s then
    ({ Passed := false
       ErrorType := .DockerDaemonNotRunning
       ErrorMessage := "Docker daemon is not running.\n\nDocker error:\n" ++ (runDockerInfo s).snd
       SuggestedAction := "Start the Docker service:\n\n  " ++ getDockerStartCommand s ++ "\n\nTroubleshooting: https://docs.docker.com/config/daemon/troubleshoot/" },
     .daemonDown)
  else if strContains (runDockerInfo s).snd "permission denied"
      || strContains (runDockerInfo s).snd "dial unix" then
    if s.goos = "darwin" then
      ({ Passed := false
         ErrorType := .DockerPermissionDenied
         ErrorMessage := "Cannot connect to Docker Desktop.\n\nDocker error:\n" ++ (runDockerInfo s).snd
         SuggestedAction := "Make sure Docker Desktop is running:\n\n1. Open Docker Desktop application\n2. Wait for it to start completely\n3. Check that the Docker icon in the menu bar shows it's running\n\nIf issues persist, try restarting Docker Desktop.\n\nDocker Desktop guide: https://docs.docker.com/desktop/install/mac-install/" },
       .macPerm)
    else if isUserInDockerGroup s && isDockerInActiveGroups s
        && !(checkDockerSocketPermissions s).fst then
      ({ Passed := false
         ErrorType := .DockerPermissionDenied
         ErrorMessage := "You're in the docker group, but the socket has incorrect permissions.\n\nSocket error: " ++ (checkDockerSocketPermissions s).snd ++ "\n\nDocker error:\n" ++ (runDockerInfo s).snd
         SuggestedAction := "Fix the Docker socket permissions:\n\n  sudo chown root:docker /var/run/docker.sock\n  sudo chmod 660 /var/run/docker.sock\n\nOr restart Docker to recreate the socket:\n\n  " ++ getDockerRestartCommand s ++ "\n\nGuide: https://docs.docker.com/engine/install/linux-postinstall/" },
       .sockPerm)
    else if isUserInDockerGroup s && !isDockerInActiveGroups s then
      ({ Passed := false
         ErrorType := .DockerGroupNotRefreshed
         ErrorMessage := "You're in the docker group but your session hasn't been refreshed.\n\nDocker error:\n" ++ (runDockerInfo s).snd
         SuggestedAction := "Log out and log back in to refresh your group membership.\n\nMore info: https://docs.docker.com/engine/install/linux-postinstall/#manage-docker-as-a-non-root-user" },
       .groupRefresh)
    else if !doesDockerGroupExist s then
      ({ Passed := false
         ErrorType := .DockerPermissionDenied
         ErrorMessage := "Cannot communicate with the Docker daemon.\n\nDocker error:\n" ++ (runDockerInfo s).snd
         SuggestedAction := createGroupAction },
       .groupMissing)
    else
      ({ Passed := false
         ErrorType := .DockerPermissionDenied
         ErrorMessage := "Cannot communicate with the Docker daemon.\n\nDocker error:\n" ++ (runDockerInfo s).snd
         SuggestedAction := addUserAction },
       .addUser)
  else
    ({ Passed := false
       ErrorType := .DockerDaemonNotRunning
       ErrorMessage := "Docker error:\n" ++ (runDockerInfo s).snd
       SuggestedAction := "Check Docker installation and try:\n\n  " ++ getDockerStartCommand s ++ "\n\nDocker docs: https://docs.docker.com/" },
     .fallbackCase)

/-- `checkDockerDaemon` of `precheck.go` (result component). -/
def checkDockerDaemon (s : HostState) : PreCheckResult :=
  (checkDockerDaemonT s).fst

/-- True on the branches whose production consulted the group-membership,
active-group and socket-permission sub-checks (the Linux permission
block of `checkDockerDaemon`). -/
def groupChecksConsulted : DaemonBranch → Bool
  | .sockPerm | .groupRefresh | .groupMissing | .addUser => true
  | _ => false

/-- `RunPreChecks` of `precheck.go`, instrumented with whether the
daemon diagnostic step (`checkDockerDaemon`) was executed. -/
def RunPreChecksT (s : HostState) : PreCheckResult × Bool :=
  if !(checkDockerInstalled s).Passed then (checkDockerInstalled s, false)
  else if !(checkDockerDaemon s).Passed then (checkDockerDaemon s, true)
  else ({ Passed := true }, true)

/-- `RunPreChecks` of `precheck.go`. -/
def RunPreChecks (s : HostState) : PreCheckResult :=
  (RunPreChecksT s).fst

/-- Two successive invocations of `RunPreChecks` on an unchanged host. -/
def runPreChecksTwice (s : HostState) : PreCheckResult × PreCheckResult :=
  (RunPreChecks s, RunPreChecks s)

/-- Concrete host states used as witnesses and counterexamples. -/
def sLinuxBase : HostState :=
  { goos := "linux", dockerInPath := true, infoExitOk := false
    infoStderr := "permission denied", recheckOk := true
    hasSystemctl := true, hasRcService := false, hasSv := false
    hasGrep := true, hasId := true
    etcGroup := some "root:x:0:\ndocker:x:999:alice,bob\nwheel:x:10:alice"
    currentUser := some "alice", idOutput := some "alice wheel"
    socketExists := true, socketOpen := .ok }

/-- Host state meeting all conditions of the C1 claim but whose daemon
re-invocation fails. -/
def sC1cex : HostState := { sLinuxBase with recheckOk := false }

/-- Host state meeting the C5 claim's conditions: capital-C stderr that
also mentions `dial unix`, with a succeeding re-invocation and a user
outside the docker group. -/
def sC5cex : HostState :=
  { sLinuxBase with
      infoStderr := "Cannot connect to the Docker daemon: dial unix /var/run/docker.sock"
      currentUser := some "carol" }

/-- Host state meeting all conditions of the C6 claim but whose daemon
re-invocation fails. -/
def sC6cex : HostState :=
  { sLinuxBase with
      recheckOk := false
      idOutput := some "alice docker"
      socketExists := false }

/-- Host state meeting all conditions of the C7 claim (group absent
case) but whose daemon re-invocation fails. -/
def sC7cex : HostState :=
  { sLinuxBase with
      recheckOk := false
      etcGroup := some "root:x:0:\nwheel:x:10:carol"
      currentUser := some "carol" }

/-- Witness state for the amended C6: user in group file and active
groups, socket missing, re-invocation succeeds. -/
def sC6wit : HostState :=
  { sLinuxBase with idOutput := some "alice docker", socketExists := false }

/-- Witness state for the amended C7: user absent from the docker group
line, group present, re-invocation succeeds. -/
def sC7wit : HostState := { sLinuxBase with currentUser := some "carol" }

/-- Witness state for the amended C7 group-missing case. -/
def sC7witMissing : HostState :=
  { sLinuxBase with
      currentUser := some "carol"
      etcGroup := some "root:x:0:\nwheel:x:10:carol" }

/-- Witness state for C5 amended: stderr is the daemon-unreachable text
without permission phrasing. -/
def sC5wit : HostState :=
  { sLinuxBase with infoStderr := "Cannot connect to the Docker daemon at unix. Is the docker daemon running?" }

/-- Witness state for C8: macOS with a permission-style failure. -/
def sMacWit : HostState :=
  { sLinuxBase with
      goos := "darwin"
      etcGroup := none
      currentUser := none
      idOutput := none }

/-- Witness state for C2: docker absent from PATH. -/
def sNoDocker : HostState := { sLinuxBase with dockerInPath := false }

/-- Witness state for C3: diagnostic exits zero. -/
def sAllOk : HostState := { sLinuxBase with infoExitOk := true, idOutput := some "alice docker" }

/-- Witness state for C10: re-invocation of the diagnostic fails. -/
def sC10wit : HostState := { sLinuxBase with recheckOk := false }

end DockMate

namespace DockMate

/-- The empty needle is contained in every haystack. -/
theorem containsL_nil_needle (l : List Char) : containsL [] l = true := by
  cases l <;> simp [containsL, isPrefixOfL, List.isEmpty]

/-- A list is a prefix of itself extended on the right. -/
theorem isPrefixOfL_self_append (n b : List Char) : isPrefixOfL n (n ++ b) = true := by
  induction n with
  | nil => rfl
  | cons a as ih => simp [isPrefixOfL, ih]

/-- Prefixes survive extension of the haystack on the right. -/
theorem isPrefixOfL_append (n : List Char) :
    ∀ l b, isPrefixOfL n l = true → isPrefixOfL n (l ++ b) = true := by
  induction n with
  | nil => intro l b _; rfl
  | cons a as ih =>
    intro l b h
    cases l with
    | nil => simp [isPrefixOfL] at h
    | cons c cs =>
      simp only [isPrefixOfL, List.cons_append, Bool.and_eq_true] at h ⊢
      exact ⟨h.1, ih cs b h.2⟩

/-- A list occurs in itself extended on the right. -/
theorem containsL_self_append (n b : List Char) : containsL n (n ++ b) = true := by
  cases n with
  | nil => exact containsL_nil_needle b
  | cons a as =>
    simp only [List.cons_append, containsL, Bool.or_eq_true]
    exact Or.inl (isPrefixOfL_self_append (a :: as) b)

/-- Occurrence survives extension of the haystack on the left. -/
theorem containsL_suffix (n a l : List Char) (h : containsL n l = true) :
    containsL n (a ++ l) = true := by
  induction a with
  | nil => simpa using h
  | cons x xs ih =>
    simp only [List.cons_append, containsL, Bool.or_eq_true]
    exact Or.inr ih

/-- Occurrence survives extension of the haystack on the right. -/
theorem containsL_prefix (n : List Char) :
    ∀ l b, containsL n l = true → containsL n (l ++ b) = true := by
  intro l
  induction l with
  | nil =>
    intro b h
    simp only [containsL, List.isEmpty_iff] at h
    subst h
    exact containsL_nil_needle b
  | cons x xs ih =>
    intro b h
    simp only [containsL, Bool.or_eq_true] at h ⊢
    cases h with
    | inl hp => exact Or.inl (isPrefixOfL_append n (x :: xs) b hp)
    | inr hc => exact Or.inr (ih b hc)

/-- `strings.Contains (p ++ c ++ t) c` always holds. -/
theorem strContains_mid (p c t : String) : strContains (p ++ c ++ t) c = true := by
  show containsL c.data ((p.data ++ c.data) ++ t.data) = true
  rw [List.append_assoc]
  exact containsL_suffix _ _ _ (containsL_self_append _ _)

/-- Containment in the left part of an append. -/
theorem strContains_left (l t sub : String) (h : strContains l sub = true) :
    strContains (l ++ t) sub = true := by
  show containsL sub.data (l.data ++ t.data) = true
  exact containsL_prefix _ _ _ h

/-- Appending to a non-empty string stays non-empty. -/
theorem str_append_ne_empty (p q : String) (h : p ≠ "") : p ++ q ≠ "" := by
  intro hc
  apply h
  have hd : p.data ++ q.data = [] := by
    have := congrArg String.data hc
    simpa [String.data_append] using this
  cases p with
  | mk l =>
    cases l with
    | nil => rfl
    | cons c cs => simp at hd

/-- A succeeding re-invocation implies the binary resolved and the
re-run exited zero. -/
theorem isDaemonRunning_elim {s : HostState} (h : isDaemonRunning s = true) :
    commandExists s "docker" = true ∧ s.recheckOk = true := by
  simpa [isDaemonRunning, Bool.and_eq_true] using h

/-- A zero-exit captured diagnostic implies the binary resolved and the
captured run exited zero. -/
theorem runDockerInfo_fst_true {s : HostState} (h : (runDockerInfo s).fst = true) :
    commandExists s "docker" = true ∧ s.infoExitOk = true := by
  by_cases hd : commandExists s "docker" = true
  · refine ⟨hd, ?_⟩
    simpa [runDockerInfo, hd] using h
  · exfalso
    simp [runDockerInfo, hd] at h

end DockMate

namespace DockMate

/-- On a non-macOS host the start command follows the fixed init-system
probe priority. -/
theorem getDockerStartCommand_nonDarwin (s : HostState) (hos : s.goos ≠ "darwin") :
    getDockerStartCommand s =
      (if s.hasSystemctl = true then "sudo systemctl start docker"
       else if s.hasRcService = true then "sudo rc-service docker start"
       else if s.hasSv = true then "sudo sv up docker"
       else "sudo service docker start") := by
  unfold getDockerStartCommand
  rw [if_neg hos]
  rfl

/-- On macOS the start command references the desktop application. -/
theorem getDockerStartCommand_darwin (s : HostState) (hos : s.goos = "darwin") :
    getDockerStartCommand s = "Start Docker Desktop application" := by
  unfold getDockerStartCommand
  rw [if_pos hos]

/-- C2: for every host state in which the docker executable is absent
from the PATH, RunPreChecks returns passed = false with errorKind
DockerNotInstalled, and the daemon diagnostic step never executes
(the trace flag of RunPreChecksT stays false). -/
theorem runPreChecks_runtime_not_installed (s : HostState)
    (h : commandExists s "docker" = false) :
    (RunPreChecks s).Passed = false
    ∧ (RunPreChecks s).ErrorType = .DockerNotInstalled
    ∧ (RunPreChecksT s).snd = false := by
  simp [RunPreChecks, RunPreChecksT, checkDockerInstalled, h]

theorem runPreChecks_runtime_not_installed_witness :
    commandExists sNoDocker "docker" = false
    ∧ (RunPreChecks sNoDocker).Passed = false
    ∧ (RunPreChecks sNoDocker).ErrorType = .DockerNotInstalled
    ∧ (RunPreChecksT sNoDocker).snd = false :=
  ⟨by decide, runPreChecks_runtime_not_installed sNoDocker (by decide)⟩

/-- C3: for every host state in which the daemon diagnostic command
exits with status zero, RunPreChecks returns passed = true with
errorKind None regardless of any other host condition, and no
classification sub-check runs (the branch trace is okPass). -/
theorem runPreChecks_daemon_ok (s : HostState)
    (h : (runDockerInfo s).fst = true) :
    (RunPreChecks s).Passed = true
    ∧ (RunPreChecks s).ErrorType = .NoError
    ∧ (checkDockerDaemonT s).snd = .okPass := by
  obtain ⟨hd, _⟩ := runDockerInfo_fst_true h
  simp [RunPreChecks, RunPreChecksT, checkDockerInstalled, checkDockerDaemon,
        checkDockerDaemonT, hd, h]

theorem runPreChecks_daemon_ok_witness :
    (runDockerInfo sAllOk).fst = true
    ∧ (RunPreChecks sAllOk).Passed = true
    ∧ (RunPreChecks sAllOk).ErrorType = .NoError
    ∧ (checkDockerDaemonT sAllOk).snd = .okPass :=
  ⟨by decide, runPreChecks_daemon_ok sAllOk (by decide)⟩

/-- C9: RunPreChecks is deterministic in the host state: two successive
invocations on an unchanged host state return identical results in all
four fields. -/
theorem runPreChecks_deterministic (s : HostState) :
    (runPreChecksTwice s).fst.Passed = (runPreChecksTwice s).snd.Passed
    ∧ (runPreChecksTwice s).fst.ErrorType = (runPreChecksTwice s).snd.ErrorType
    ∧ (runPreChecksTwice s).fst.ErrorMessage = (runPreChecksTwice s).snd.ErrorMessage
    ∧ (runPreChecksTwice s).fst.SuggestedAction = (runPreChecksTwice s).snd.SuggestedAction :=
  ⟨rfl, rfl, rfl, rfl⟩

/-- C10: for every failing daemon diagnostic on any OS, if the
independent re-invocation of the diagnostic also fails, the result is
classified DaemonNotRunning on the daemon-down branch and the
permission/group sub-classification is never reached. -/
theorem daemon_recheck_failure_preempts_permission (s : HostState)
    (hfail : (runDockerInfo s).fst = false)
    (hre : isDaemonRunning s = false) :
    (checkDockerDaemonT s).snd = .daemonDown
    ∧ (checkDockerDaemon s).ErrorType = .DockerDaemonNotRunning
    ∧ groupChecksConsulted (checkDockerDaemonT s).snd = false := by
  simp [checkDockerDaemon, checkDockerDaemonT, hfail, hre, groupChecksConsulted]

theorem daemon_recheck_failure_preempts_permission_witness :
    (runDockerInfo sC10wit).fst = false
    ∧ isDaemonRunning sC10wit = false
    ∧ (checkDockerDaemonT sC10wit).snd = .daemonDown
    ∧ (checkDockerDaemon sC10wit).ErrorType = .DockerDaemonNotRunning
    ∧ groupChecksConsulted (checkDockerDaemonT sC10wit).snd = false :=
  ⟨by decide, by decide,
   daemon_recheck_failure_preempts_permission sC10wit (by decide) (by decide)⟩

/-- C1 counterexample: a Linux host state satisfying every condition of
the claim (diagnostic fails with stderr containing "permission denied",
group file lists the user in the docker group, active groups lack
docker) whose result is DaemonNotRunning, not GroupMembershipNotRefreshed,
because the independent re-invocation of the diagnostic also fails. -/
theorem group_refresh_claim_counterexample :
    sC1cex.goos ≠ "darwin"
    ∧ (runDockerInfo sC1cex).fst = false
    ∧ strContains (runDockerInfo sC1cex).snd "permission denied" = true
    ∧ isUserInDockerGroup sC1cex = true
    ∧ isDockerInActiveGroups sC1cex = false
    ∧ (RunPreChecks sC1cex).ErrorType ≠ PreCheckErrorType.DockerGroupNotRefreshed
    ∧ (RunPreChecks sC1cex).ErrorType = PreCheckErrorType.DockerDaemonNotRunning := by
  decide

/-- C1 amended: on a non-macOS host where the daemon diagnostic fails
with stderr containing "permission denied", stderr contains neither
daemon-unreachable phrase, the independent re-invocation of the
diagnostic succeeds, the group file lists the current user in the
docker group and the active group list does not include docker, the
result is passed = false with errorKind GroupMembershipNotRefreshed. -/
theorem group_refresh_classification (s : HostState)
    (hos : s.goos ≠ "darwin")
    (hfail : (runDockerInfo s).fst = false)
    (hperm : strContains (runDockerInfo s).snd "permission denied" = true)
    (hnd1 : strContains (runDockerInfo s).snd "Is the docker daemon running" = false)
    (hnd2 : strContains (runDockerInfo s).snd "cannot connect to the Docker daemon" = false)
    (hre : isDaemonRunning s = true)
    (hg : isUserInDockerGroup s = true)
    (ha : isDockerInActiveGroups s = false) :
    (RunPreChecks s).Passed = false
    ∧ (RunPreChecks s).ErrorType = .DockerGroupNotRefreshed := by
  obtain ⟨hd, _⟩ := isDaemonRunning_elim hre
  simp [RunPreChecks, RunPreChecksT, checkDockerInstalled, checkDockerDaemon,
        checkDockerDaemonT, hd, hfail, hperm, hnd1, hnd2, hre, hg, ha, hos]

theorem group_refresh_classification_witness :
    (RunPreChecks sLinuxBase).Passed = false
    ∧ (RunPreChecks sLinuxBase).ErrorType = .DockerGroupNotRefreshed :=
  group_refresh_classification sLinuxBase (by decide) (by decide) (by decide)
    (by decide) (by decide) (by decide) (by decide) (by decide)

end DockMate

namespace DockMate

/-- C5 counterexample: a Linux host state whose failing diagnostic
stderr contains "Cannot connect to the Docker daemon" (and also
"dial unix") with a succeeding re-invocation is classified
PermissionDenied, not DaemonNotRunning: the code's case-sensitive match
is against the lowercase phrase, so the capital-C phrase falls through
to the permission branch. -/
theorem daemon_unreachable_claim_counterexample :
    sC5cex.goos ≠ "darwin"
    ∧ (runDockerInfo sC5cex).fst = false
    ∧ strContains (runDockerInfo sC5cex).snd "Cannot connect to the Docker daemon" = true
    ∧ (RunPreChecks sC5cex).ErrorType ≠ PreCheckErrorType.DockerDaemonNotRunning
    ∧ (RunPreChecks sC5cex).ErrorType = PreCheckErrorType.DockerPermissionDenied := by
  decide

/-- C5 amended: on a non-macOS host where the daemon diagnostic fails
with stderr containing "Cannot connect to the Docker daemon" and
containing neither "permission denied" nor "dial unix", the result is
passed = false with errorKind DaemonNotRunning and its suggestedAction
contains the start command selected by the first init-system probe that
succeeds, in the fixed priority systemctl, rc-service, sv, service. -/
theorem daemon_unreachable_classification (s : HostState)
    (hos : s.goos ≠ "darwin")
    (hfail : (runDockerInfo s).fst = false)
    (hcc : strContains (runDockerInfo s).snd "Cannot connect to the Docker daemon" = true)
    (hnp : strContains (runDockerInfo s).snd "permission denied" = false)
    (hnd : strContains (runDockerInfo s).snd "dial unix" = false) :
    (RunPreChecks s).Passed = false
    ∧ (RunPreChecks s).ErrorType = .DockerDaemonNotRunning
    ∧ strContains (RunPreChecks s).SuggestedAction (getDockerStartCommand s) = true
    ∧ getDockerStartCommand s =
        (if s.hasSystemctl = true then "sudo systemctl start docker"
         else if s.hasRcService = true then "sudo rc-service docker start"
         else if s.hasSv = true then "sudo sv up docker"
         else "sudo service docker start") := by
  have hd : commandExists s "docker" = true := by
    by_cases hd : commandExists s "docker" = true
    · exact hd
    · exfalso
      have h2 : (runDockerInfo s).snd = "" := by simp [runDockerInfo, hd]
      rw [h2] at hcc
      exact absurd hcc (by decide)
  by_cases hb : (strContains (runDockerInfo s).snd "Is the docker daemon running"
      || strContains (runDockerInfo s).snd "cannot connect to the Docker daemon"
      || !isDaemonRunning s) = true
  · have hres : RunPreChecks s =
        { Passed := false
          ErrorType := .DockerDaemonNotRunning
          ErrorMessage := "Docker daemon is not running.\n\nDocker error:\n" ++ (runDockerInfo s).snd
          SuggestedAction := "Start the Docker service:\n\n  " ++ getDockerStartCommand s ++ "\n\nTroubleshooting: https://docs.docker.com/config/daemon/troubleshoot/" } := by
      simp [RunPreChecks, RunPreChecksT, checkDockerInstalled, checkDockerDaemon,
            checkDockerDaemonT, hd, hfail, hb]
    rw [hres]
    exact ⟨rfl, rfl, strContains_mid _ _ _, getDockerStartCommand_nonDarwin s hos⟩
  · have hres : RunPreChecks s =
        { Passed := false
          ErrorType := .DockerDaemonNotRunning
          ErrorMessage := "Docker error:\n" ++ (runDockerInfo s).snd
          SuggestedAction := "Check Docker installation and try:\n\n  " ++ getDockerStartCommand s ++ "\n\nDocker docs: https://docs.docker.com/" } := by
      simp [RunPreChecks, RunPreChecksT, checkDockerInstalled, checkDockerDaemon,
            checkDockerDaemonT, hd, hfail, hb, hnp, hnd]
    rw [hres]
    exact ⟨rfl, rfl, strContains_mid _ _ _, getDockerStartCommand_nonDarwin s hos⟩

theorem daemon_unreachable_classification_witness :
    (RunPreChecks sC5wit).Passed = false
    ∧ (RunPreChecks sC5wit).ErrorType = .DockerDaemonNotRunning
    ∧ strContains (RunPreChecks sC5wit).SuggestedAction (getDockerStartCommand sC5wit) = true
    ∧ getDockerStartCommand sC5wit =
        (if sC5wit.hasSystemctl = true then "sudo systemctl start docker"
         else if sC5wit.hasRcService = true then "sudo rc-service docker start"
         else if sC5wit.hasSv = true then "sudo sv up docker"
         else "sudo service docker start") :=
  daemon_unreachable_classification sC5wit (by decide) (by decide) (by decide)
    (by decide) (by decide)

end DockMate

namespace DockMate

/-- C6 counterexample: a Linux host state satisfying every condition of
the claim (permission stderr, user in group file and active groups,
socket inaccessible) whose result is DaemonNotRunning, not
PermissionDenied, because the independent re-invocation of the
diagnostic also fails. -/
theorem socket_mismatch_claim_counterexample :
    sC6cex.goos ≠ "darwin"
    ∧ (runDockerInfo sC6cex).fst = false
    ∧ strContains (runDockerInfo sC6cex).snd "permission denied" = true
    ∧ isUserInDockerGroup sC6cex = true
    ∧ isDockerInActiveGroups sC6cex = true
    ∧ (checkDockerSocketPermissions sC6cex).fst = false
    ∧ (RunPreChecks sC6cex).ErrorType ≠ PreCheckErrorType.DockerPermissionDenied
    ∧ (RunPreChecks sC6cex).ErrorType = PreCheckErrorType.DockerDaemonNotRunning := by
  decide

/-- C6 amended: on a non-macOS host where the daemon diagnostic fails
with permission/dial-unix stderr free of the daemon-unreachable
phrases, the re-invocation succeeds, the group file lists the user, the
active groups include docker, and the socket is not accessible
read-write, the result is PermissionDenied with the chown/chmod
remedies and the restart command in its suggestedAction, and is never
GroupMembershipNotRefreshed. -/
theorem socket_mismatch_classification (s : HostState)
    (hos : s.goos ≠ "darwin")
    (hfail : (runDockerInfo s).fst = false)
    (hperm : strContains (runDockerInfo s).snd "permission denied" = true
             ∨ strContains (runDockerInfo s).snd "dial unix" = true)
    (hnd1 : strContains (runDockerInfo s).snd "Is the docker daemon running" = false)
    (hnd2 : strContains (runDockerInfo s).snd "cannot connect to the Docker daemon" = false)
    (hre : isDaemonRunning s = true)
    (hg : isUserInDockerGroup s = true)
    (ha : isDockerInActiveGroups s = true)
    (hs : (checkDockerSocketPermissions s).fst = false) :
    (RunPreChecks s).Passed = false
    ∧ (RunPreChecks s).ErrorType = .DockerPermissionDenied
    ∧ (RunPreChecks s).ErrorType ≠ .DockerGroupNotRefreshed
    ∧ strContains (RunPreChecks s).SuggestedAction "sudo chown root:docker /var/run/docker.sock" = true
    ∧ strContains (RunPreChecks s).SuggestedAction "sudo chmod 660 /var/run/docker.sock" = true
    ∧ strContains (RunPreChecks s).SuggestedAction (getDockerRestartCommand s) = true := by
  obtain ⟨hd, _⟩ := isDaemonRunning_elim hre
  have hres : RunPreChecks s =
      { Passed := false
        ErrorType := .DockerPermissionDenied
        ErrorMessage := "You're in the docker group, but the socket has incorrect permissions.\n\nSocket error: " ++ (checkDockerSocketPermissions s).snd ++ "\n\nDocker error:\n" ++ (runDockerInfo s).snd
        SuggestedAction := "Fix the Docker socket permissions:\n\n  sudo chown root:docker /var/run/docker.sock\n  sudo chmod 660 /var/run/docker.sock\n\nOr restart Docker to recreate the socket:\n\n  " ++ getDockerRestartCommand s ++ "\n\nGuide: https://docs.docker.com/engine/install/linux-postinstall/" } := by
    rcases hperm with h | h <;>
      simp [RunPreChecks, RunPreChecksT, checkDockerInstalled, checkDockerDaemon,
            checkDockerDaemonT, hd, hfail, h, hnd1, hnd2, hre, hg, ha, hs, hos]
  rw [hres]
  refine ⟨rfl, rfl,
    (by decide : PreCheckErrorType.DockerPermissionDenied ≠ PreCheckErrorType.DockerGroupNotRefreshed),
    ?_, ?_, strContains_mid _ _ _⟩
  · exact strContains_left _ _ _ (strContains_left _ _ _ (by decide))
  · exact strContains_left _ _ _ (strContains_left _ _ _ (by decide))

theorem socket_mismatch_classification_witness :
    (RunPreChecks sC6wit).Passed = false
    ∧ (RunPreChecks sC6wit).ErrorType = .DockerPermissionDenied
    ∧ (RunPreChecks sC6wit).ErrorType ≠ .DockerGroupNotRefreshed
    ∧ strContains (RunPreChecks sC6wit).SuggestedAction "sudo chown root:docker /var/run/docker.sock" = true
    ∧ strContains (RunPreChecks sC6wit).SuggestedAction "sudo chmod 660 /var/run/docker.sock" = true
    ∧ strContains (RunPreChecks sC6wit).SuggestedAction (getDockerRestartCommand sC6wit) = true :=
  socket_mismatch_classification sC6wit (by decide) (by decide) (Or.inl (by decide))
    (by decide) (by decide) (by decide) (by decide) (by decide) (by decide)

end DockMate

namespace DockMate

/-- C7 counterexample: a Linux host state satisfying the claim's
conditions (permission stderr, user absent from the docker group, group
absent from the group database) whose result is DaemonNotRunning, not
PermissionDenied, because the independent re-invocation of the
diagnostic also fails. -/
theorem group_missing_claim_counterexample :
    sC7cex.goos ≠ "darwin"
    ∧ (runDockerInfo sC7cex).fst = false
    ∧ strContains (runDockerInfo sC7cex).snd "permission denied" = true
    ∧ isUserInDockerGroup sC7cex = false
    ∧ doesDockerGroupExist sC7cex = false
    ∧ (RunPreChecks sC7cex).ErrorType ≠ PreCheckErrorType.DockerPermissionDenied
    ∧ (RunPreChecks sC7cex).ErrorType = PreCheckErrorType.DockerDaemonNotRunning := by
  decide

/-- C7 amended: on a non-macOS host where the daemon diagnostic fails
with "permission denied" stderr free of the daemon-unreachable phrases,
the re-invocation succeeds and the user is not listed in the docker
group of the group file: if the docker group is absent the result is
PermissionDenied with the create-the-group remedy, if the group exists
it is PermissionDenied with the add-the-user remedy, and the two remedy
texts are distinct. -/
theorem non_member_classification (s : HostState)
    (hos : s.goos ≠ "darwin")
    (hfail : (runDockerInfo s).fst = false)
    (hperm : strContains (runDockerInfo s).snd "permission denied" = true)
    (hnd1 : strContains (runDockerInfo s).snd "Is the docker daemon running" = false)
    (hnd2 : strContains (runDockerInfo s).snd "cannot connect to the Docker daemon" = false)
    (hre : isDaemonRunning s = true)
    (hg : isUserInDockerGroup s = false) :
    (doesDockerGroupExist s = false →
       (RunPreChecks s).ErrorType = .DockerPermissionDenied
       ∧ (RunPreChecks s).SuggestedAction = createGroupAction)
    ∧ (doesDockerGroupExist s = true →
       (RunPreChecks s).ErrorType = .DockerPermissionDenied
       ∧ (RunPreChecks s).SuggestedAction = addUserAction)
    ∧ createGroupAction ≠ addUserAction := by
  obtain ⟨hd, _⟩ := isDaemonRunning_elim hre
  refine ⟨fun he => ?_, fun he => ?_, by decide⟩
  · have hres : RunPreChecks s =
        { Passed := false
          ErrorType := .DockerPermissionDenied
          ErrorMessage := "Cannot communicate with the Docker daemon.\n\nDocker error:\n" ++ (runDockerInfo s).snd
          SuggestedAction := createGroupAction } := by
      simp [RunPreChecks, RunPreChecksT, checkDockerInstalled, checkDockerDaemon,
            checkDockerDaemonT, hd, hfail, hperm, hnd1, hnd2, hre, hg, he, hos]
    rw [hres]
    exact ⟨rfl, rfl⟩
  · have hres : RunPreChecks s =
        { Passed := false
          ErrorType := .DockerPermissionDenied
          ErrorMessage := "Cannot communicate with the Docker daemon.\n\nDocker error:\n" ++ (runDockerInfo s).snd
          SuggestedAction := addUserAction } := by
      simp [RunPreChecks, RunPreChecksT, checkDockerInstalled, checkDockerDaemon,
            checkDockerDaemonT, hd, hfail, hperm, hnd1, hnd2, hre, hg, he, hos]
    rw [hres]
    exact ⟨rfl, rfl⟩

theorem non_member_classification_witness :
    (doesDockerGroupExist sC7witMissing = false
     ∧ (RunPreChecks sC7witMissing).ErrorType = .DockerPermissionDenied
     ∧ (RunPreChecks sC7witMissing).SuggestedAction = createGroupAction)
    ∧ (doesDockerGroupExist sC7wit = true
     ∧ (RunPreChecks sC7wit).ErrorType = .DockerPermissionDenied
     ∧ (RunPreChecks sC7wit).SuggestedAction = addUserAction)
    ∧ createGroupAction ≠ addUserAction :=
  ⟨⟨by decide,
    (non_member_classification sC7witMissing (by decide) (by decide) (by decide)
      (by decide) (by decide) (by decide) (by decide)).1 (by decide)⟩,
   ⟨by decide,
    (non_member_classification sC7wit (by decide) (by decide) (by decide)
      (by decide) (by decide) (by decide) (by decide)).2.1 (by decide)⟩,
   by decide⟩

/-- C8: on a macOS host where the daemon diagnostic fails, none of the
group-membership, active-group or socket-permission sub-checks is
consulted in producing the classification, and the suggestedAction of
the result references the Docker Desktop application. -/
theorem mac_bypasses_group_logic (s : HostState)
    (hos : s.goos = "darwin")
    (hfail : (runDockerInfo s).fst = false) :
    groupChecksConsulted (checkDockerDaemonT s).snd = false
    ∧ strContains (checkDockerDaemonT s).fst.SuggestedAction "Docker Desktop" = true := by
  by_cases hb1 : (strContains (runDockerInfo s).snd "Is the docker daemon running"
      || strContains (runDockerInfo s).snd "cannot connect to the Docker daemon"
      || !isDaemonRunning s) = true
  · have hres : checkDockerDaemonT s =
        ({ Passed := false
           ErrorType := .DockerDaemonNotRunning
           ErrorMessage := "Docker daemon is not running.\n\nDocker error:\n" ++ (runDockerInfo s).snd
           SuggestedAction := "Start the Docker service:\n\n  " ++ getDockerStartCommand s ++ "\n\nTroubleshooting: https://docs.docker.com/config/daemon/troubleshoot/" },
         .daemonDown) := by
      simp [checkDockerDaemonT, hfail, hb1]
    have hact : (checkDockerDaemonT s).fst.SuggestedAction =
        "Start the Docker service:\n\n  " ++ "Start Docker Desktop application" ++ "\n\nTroubleshooting: https://docs.docker.com/config/daemon/troubleshoot/" := by
      rw [hres, getDockerStartCommand_darwin s hos]
    refine ⟨by rw [hres]; rfl, ?_⟩
    rw [hact]
    decide
  · by_cases hb2 : (strContains (runDockerInfo s).snd "permission denied"
        || strContains (runDockerInfo s).snd "dial unix") = true
    · have hres : checkDockerDaemonT s =
          ({ Passed := false
             ErrorType := .DockerPermissionDenied
             ErrorMessage := "Cannot connect to Docker Desktop.\n\nDocker error:\n" ++ (runDockerInfo s).snd
             SuggestedAction := "Make sure Docker Desktop is running:\n\n1. Open Docker Desktop application\n2. Wait for it to start completely\n3. Check that the Docker icon in the menu bar shows it's running\n\nIf issues persist, try restarting Docker Desktop.\n\nDocker Desktop guide: https://docs.docker.com/desktop/install/mac-install/" },
           .macPerm) := by
        simp [checkDockerDaemonT, hfail, hb1, hb2, hos]
      have hact : (checkDockerDaemonT s).fst.SuggestedAction =
          "Make sure Docker Desktop is running:\n\n1. Open Docker Desktop application\n2. Wait for it to start completely\n3. Check that the Docker icon in the menu bar shows it's running\n\nIf issues persist, try restarting Docker Desktop.\n\nDocker Desktop guide: https://docs.docker.com/desktop/install/mac-install/" := by
        rw [hres]
      refine ⟨by rw [hres]; rfl, ?_⟩
      rw [hact]
      decide
    · have hres : checkDockerDaemonT s =
          ({ Passed := false
             ErrorType := .DockerDaemonNotRunning
             ErrorMessage := "Docker error:\n" ++ (runDockerInfo s).snd
             SuggestedAction := "Check Docker installation and try:\n\n  " ++ getDockerStartCommand s ++ "\n\nDocker docs: https://docs.docker.com/" },
           .fallbackCase) := by
        simp [checkDockerDaemonT, hfail, hb1, hb2]
      have hact : (checkDockerDaemonT s).fst.SuggestedAction =
          "Check Docker installation and try:\n\n  " ++ "Start Docker Desktop application" ++ "\n\nDocker docs: https://docs.docker.com/" := by
        rw [hres, getDockerStartCommand_darwin s hos]
      refine ⟨by rw [hres]; rfl, ?_⟩
      rw [hact]
      decide

theorem mac_bypasses_group_logic_witness :
    groupChecksConsulted (checkDockerDaemonT sMacWit).snd = false
    ∧ strContains (checkDockerDaemonT sMacWit).fst.SuggestedAction "Docker Desktop" = true :=
  mac_bypasses_group_logic sMacWit (by decide) (by decide)

end DockMate

namespace DockMate

set_option maxHeartbeats 2000000 in
/-- C4: every result of RunPreChecks satisfies the invariant: a passing
result carries errorKind None and empty message and suggested action; a
failing result carries a non-None errorKind and non-empty message and
suggested action. -/
theorem runPreChecks_result_invariant (s : HostState) :
    ((RunPreChecks s).Passed = true →
      (RunPreChecks s).ErrorType = .NoError
      ∧ (RunPreChecks s).ErrorMessage = ""
      ∧ (RunPreChecks s).SuggestedAction = "")
    ∧ ((RunPreChecks s).Passed = false →
      (RunPreChecks s).ErrorType ≠ .NoError
      ∧ (RunPreChecks s).ErrorMessage ≠ ""
      ∧ (RunPreChecks s).SuggestedAction ≠ "") := by
  unfold RunPreChecks RunPreChecksT checkDockerDaemon checkDockerDaemonT checkDockerInstalled
  repeat' split
  all_goals refine ⟨fun hp => ?_, fun hp => ?_⟩
  all_goals simp_all
  all_goals try refine ⟨?_, ?_⟩
  all_goals repeat' apply str_append_ne_empty
  all_goals decide

theorem runPreChecks_result_invariant_witness :
    ((RunPreChecks sAllOk).ErrorType = .NoError
     ∧ (RunPreChecks sAllOk).ErrorMessage = ""
     ∧ (RunPreChecks sAllOk).SuggestedAction = "")
    ∧ ((RunPreChecks sLinuxBase).ErrorType ≠ .NoError
     ∧ (RunPreChecks sLinuxBase).ErrorMessage ≠ ""
     ∧ (RunPreChecks sLinuxBase).SuggestedAction ≠ "") :=
  ⟨(runPreChecks_result_invariant sAllOk).1 (by decide),
   (runPreChecks_result_invariant sLinuxBase).2 (by decide)⟩

end DockMate
